import Mathlib

/-!
Shallow embedding of the gpuio runtime (src/src/memory.c, src/src/stream.c,
src/src/log.c, state from src/src/internal.h).

Modelling conventions:
* A C pointer is a `Nat` address; `0` is the null pointer.  An argument that
  is itself a pointer to a struct the operation reads or writes is passed as
  an `Option` of the struct's model (`none` = null pointer).
* Host memory is a byte map `Nat → Nat`; libc `memcpy` becomes a pointwise
  redefinition reading the pre-state.
* The heap allocator (`malloc`/`calloc`/`mmap`) is modelled as an always
  fresh, always succeeding counter in the context (`next_alloc`,
  `next_region_handle`); out-of-memory paths are not modelled.
* The vendor dispatch table `current_vendor_ops` (a global in C) is passed to
  every operation as `vops : Option vendor_ops`; each slot is an `Option` of
  a pure function returning the vendor's `int` status (and outputs).  Device
  side effects of a vendor call are outside the model.
* `pthread` locking is dropped: each operation is a sequential function of
  the state, matching the single-thread view of the C code.
-/

namespace Gpuio

/-- A C pointer value as an address; `0` models the null pointer. -/
abbrev Ptr := Nat

/-- Host memory: the byte stored at every address. -/
abbrev Mem := Nat → Nat

/-- `gpuio_error_t` result codes (names as in the error-string table of
src/src/log.c; `GPUIO_ERROR_IO_X` stands for the C name of the I/O error
code). -/
inductive gpuio_error where
  | GPUIO_SUCCESS
  | GPUIO_ERROR_GENERAL
  | GPUIO_ERROR_NOMEM
  | GPUIO_ERROR_INVALID_ARG
  | GPUIO_ERROR_NOT_FOUND
  | GPUIO_ERROR_TIMEOUT
  | GPUIO_ERROR_IO_X
  | GPUIO_ERROR_NETWORK
  | GPUIO_ERROR_UNSUPPORTED
  | GPUIO_ERROR_PERMISSION
  | GPUIO_ERROR_BUSY
  | GPUIO_ERROR_CANCELED
  | GPUIO_ERROR_DEVICE_LOST
  | GPUIO_ERROR_ALREADY_INITIALIZED
  | GPUIO_ERROR_NOT_INITIALIZED
deriving DecidableEq

open gpuio_error

/-- `memory_region_internal_t` (src/src/internal.h).  `handle` is the address
of the calloc'd record: the identity the unregister loop compares with `==`
on pointers.  The `next` link is the position in the context's list. -/
structure memory_region_internal where
  handle : Ptr
  base_addr : Ptr
  gpu_addr : Ptr
  bus_addr : Nat
  length : Nat
  access : Nat
  gpu_id : Int
  registered : Bool
  is_pinned : Bool
deriving DecidableEq

/-- Public `gpuio_memory_region_t` as `gpuio_register_memory` fills it;
`handle` holds the internal record's address (`0` = null handle). -/
structure gpuio_memory_region where
  base_addr : Ptr
  gpu_addr : Ptr
  bus_addr : Nat
  length : Nat
  access : Nat
  gpu_id : Int
  registered : Bool
  handle : Ptr
deriving DecidableEq

/-- `stream_internal_t` (src/src/internal.h): the fields the modelled
operations touch (the vendor stream handle, mutex and request queue carry no
observable state here). -/
structure stream_internal where
  id : Int
  priority : Int
deriving DecidableEq

/-- `gpuio_stats_t` counters (the placeholder floating-point
`bandwidth_gbps`, always written as zero by src/src/log.c, is omitted). -/
structure gpuio_stats where
  requests_submitted : Nat
  requests_completed : Nat
  requests_failed : Nat
  bytes_read : Nat
  bytes_written : Nat
deriving DecidableEq

/-- The all-zero statistics record (`memset(&ctx->stats, 0, ...)`). -/
def gpuio_stats.zero : gpuio_stats :=
  { requests_submitted := 0, requests_completed := 0, requests_failed := 0,
    bytes_read := 0, bytes_written := 0 }

/-- `vendor_ops_t` (src/src/internal.h): each slot is `none` when the
function pointer is null, otherwise a pure function producing the vendor's
`int` status (non-zero = failed) and its outputs.  Only the slots the
modelled operations call are kept; device-management slots are unused by
them. -/
structure vendor_ops where
  malloc_device : Option (Nat → Int × Ptr)
  malloc_pinned : Option (Nat → Int × Ptr)
  free : Option (Ptr → Int)
  memcpy : Option (Ptr → Ptr → Nat → Option Nat → Int)
  register_memory : Option (Ptr → Nat → Nat → memory_region_internal →
    Int × memory_region_internal)
  unregister_memory : Option (memory_region_internal → Int)
  stream_create : Option (Int → Int)
  stream_destroy : Option Int
  stream_synchronize : Option Int
  stream_query : Option (Int × Bool)
  event_create : Option Int
  event_destroy : Option Int
  event_record : Option Int
  event_synchronize : Option Int
  event_elapsed_time : Option (Int × Nat)

/-- `struct gpuio_context` (src/src/internal.h): the registries and flags the
modelled operations read or write.  Devices, the request list, locks and the
log sink carry no state these operations observe. -/
structure gpuio_context where
  initialized : Bool
  current_device : Int
  regions : List memory_region_internal
  next_region_handle : Nat
  next_alloc : Nat
  streams : List stream_internal
  stats : gpuio_stats
deriving DecidableEq

/-- libc `memcpy` on the byte map: bytes `[dst, dst+size)` take the values
the pre-state holds at `[src, src+size)`. -/
def c_memcpy (m : Mem) (dst src : Ptr) (size : Nat) : Mem :=
  fun a => if dst ≤ a ∧ a < dst + size then m (src + (a - dst)) else m a

/-- Statistics update of `gpuio_memcpy`: `ctx->stats.bytes_written += size`
under the stats lock. -/
def bump_bytes_written (c : gpuio_context) (size : Nat) : gpuio_context :=
  { c with stats := { c.stats with bytes_written := c.stats.bytes_written + size } }

/-! ## Memory allocation (src/src/memory.c) -/

/-- `gpuio_malloc` (src/src/memory.c:18): null/initialized checks, then plain
`malloc` (modelled as a fresh address). -/
def gpuio_malloc (ctx : Option gpuio_context) (size : Nat) (ptrp : Ptr) :
    gpuio_error × Option gpuio_context × Option Ptr :=
  match ctx with
  | none => (GPUIO_ERROR_INVALID_ARG, none, none)
  | some c =>
    if ptrp = 0 then (GPUIO_ERROR_INVALID_ARG, some c, none)
    else if c.initialized = false then (GPUIO_ERROR_NOT_INITIALIZED, some c, none)
    else
      (GPUIO_SUCCESS,
       some { c with next_alloc := c.next_alloc + size + 1 },
       some (c.next_alloc + 1))

/-- `gpuio_malloc_pinned` (src/src/memory.c:36): vendor pinned allocation
first; if the slot is absent or fails, fall back to an anonymous `mmap`
(modelled as a fresh address). -/
def gpuio_malloc_pinned (vops : Option vendor_ops) (ctx : Option gpuio_context)
    (size : Nat) (ptrp : Ptr) :
    gpuio_error × Option gpuio_context × Option Ptr :=
  match ctx with
  | none => (GPUIO_ERROR_INVALID_ARG, none, none)
  | some c =>
    if ptrp = 0 then (GPUIO_ERROR_INVALID_ARG, some c, none)
    else if c.initialized = false then (GPUIO_ERROR_NOT_INITIALIZED, some c, none)
    else
      let fallback :=
        (GPUIO_SUCCESS,
         some { c with next_alloc := c.next_alloc + size + 1 },
         some (c.next_alloc + 1))
      match vops with
      | some v =>
        match v.malloc_pinned with
        | some f =>
          let r := f size
          if r.1 = 0 then (GPUIO_SUCCESS, some c, some r.2) else fallback
        | none => fallback
      | none => fallback

/-- `gpuio_malloc_device` (src/src/memory.c:71): vendor device allocation
first; if the slot is absent or fails, fall back to `gpuio_malloc_pinned`. -/
def gpuio_malloc_device (vops : Option vendor_ops) (ctx : Option gpuio_context)
    (size : Nat) (ptrp : Ptr) :
    gpuio_error × Option gpuio_context × Option Ptr :=
  match ctx with
  | none => (GPUIO_ERROR_INVALID_ARG, none, none)
  | some c =>
    if ptrp = 0 then (GPUIO_ERROR_INVALID_ARG, some c, none)
    else if c.initialized = false then (GPUIO_ERROR_NOT_INITIALIZED, some c, none)
    else
      match vops with
      | some v =>
        match v.malloc_device with
        | some f =>
          let r := f size
          if r.1 = 0 then (GPUIO_SUCCESS, some c, some r.2)
          else gpuio_malloc_pinned vops (some c) size ptrp
        | none => gpuio_malloc_pinned vops (some c) size ptrp
      | none => gpuio_malloc_pinned vops (some c) size ptrp

/-- `gpuio_malloc_unified` (src/src/memory.c:93): delegates to
`gpuio_malloc_device` when a vendor table with a `malloc_device` slot is
present, otherwise reports `GPUIO_ERROR_UNSUPPORTED`. -/
def gpuio_malloc_unified (vops : Option vendor_ops) (ctx : Option gpuio_context)
    (size : Nat) (ptrp : Ptr) :
    gpuio_error × Option gpuio_context × Option Ptr :=
  match ctx with
  | none => (GPUIO_ERROR_INVALID_ARG, none, none)
  | some c =>
    if ptrp = 0 then (GPUIO_ERROR_INVALID_ARG, some c, none)
    else if c.initialized = false then (GPUIO_ERROR_NOT_INITIALIZED, some c, none)
    else
      match vops with
      | some v =>
        match v.malloc_device with
        | some _ => gpuio_malloc_device vops (some c) size ptrp
        | none => (GPUIO_ERROR_UNSUPPORTED, some c, none)
      | none => (GPUIO_ERROR_UNSUPPORTED, some c, none)

/-- `gpuio_free` (src/src/memory.c:111): free of null succeeds at once; an
address that is the base of a region still in the list is refused with
`GPUIO_ERROR_BUSY`; otherwise vendor free (or libc `free` as fallback) and
success either way (heap deallocation itself is outside the model). -/
def gpuio_free (vops : Option vendor_ops) (ctx : Option gpuio_context) (ptr : Ptr) :
    gpuio_error × Option gpuio_context :=
  match ctx with
  | none => (GPUIO_ERROR_INVALID_ARG, none)
  | some c =>
    if c.initialized = false then (GPUIO_ERROR_NOT_INITIALIZED, some c)
    else if ptr = 0 then (GPUIO_SUCCESS, some c)
    else if c.regions.any (fun r => r.base_addr == ptr) then
      (GPUIO_ERROR_BUSY, some c)
    else
      match vops with
      | some v =>
        match v.free with
        | some f =>
          if f ptr = 0 then (GPUIO_SUCCESS, some c)
          else (GPUIO_SUCCESS, some c)
        | none => (GPUIO_SUCCESS, some c)
      | none => (GPUIO_SUCCESS, some c)

/-! ## Memory registration (src/src/memory.c) -/

/-- The tail of `gpuio_register_memory` after vendor handling: prepend the
internal record to `ctx->regions` under the lock and fill the caller's
public struct. -/
def finish_register (c : gpuio_context) (internal : memory_region_internal) :
    gpuio_error × Option gpuio_context × Option gpuio_memory_region :=
  (GPUIO_SUCCESS,
   some { c with regions := internal :: c.regions,
                 next_region_handle := c.next_region_handle + 1 },
   some { base_addr := internal.base_addr, gpu_addr := internal.gpu_addr,
          bus_addr := internal.bus_addr, length := internal.length,
          access := internal.access, gpu_id := internal.gpu_id,
          registered := true, handle := internal.handle })

/-- The record `calloc` hands `gpuio_register_memory` after the assignments
at src/src/memory.c:178: handle fresh and non-null, `gpu_addr`/`bus_addr`
still zero, registered set. -/
def reg_internal0 (c : gpuio_context) (ptr : Ptr) (size access : Nat) :
    memory_region_internal :=
  { handle := c.next_region_handle + 1, base_addr := ptr, gpu_addr := 0,
    bus_addr := 0, length := size, access := access,
    gpu_id := c.current_device, registered := true, is_pinned := false }

/-- `gpuio_register_memory` (src/src/memory.c:157).  A fresh internal record
is calloc'd (handle `next_region_handle + 1`, other pointer fields zero).
With a vendor `register_memory` slot, a non-zero vendor status frees the
record and fails with `GPUIO_ERROR_GENERAL`; the vendor may rewrite the
record's fields (its address, the handle, is not a field in C and stays).
Without a table or slot, the software fallback sets `gpu_addr` and
`bus_addr` from `ptr` and the region is tracked anyway. -/
def gpuio_register_memory (vops : Option vendor_ops) (ctx : Option gpuio_context)
    (ptr : Ptr) (size : Nat) (access : Nat) (regionp : Ptr) :
    gpuio_error × Option gpuio_context × Option gpuio_memory_region :=
  match ctx with
  | none => (GPUIO_ERROR_INVALID_ARG, none, none)
  | some c =>
    if regionp = 0 then (GPUIO_ERROR_INVALID_ARG, some c, none)
    else if c.initialized = false then (GPUIO_ERROR_NOT_INITIALIZED, some c, none)
    else if ptr = 0 ∨ size = 0 then (GPUIO_ERROR_INVALID_ARG, some c, none)
    else
      let internal0 : memory_region_internal := reg_internal0 c ptr size access
      match vops with
      | some v =>
        match v.register_memory with
        | some f =>
          let r := f ptr size access internal0
          if r.1 = 0 then
            finish_register c { r.2 with handle := internal0.handle }
          else (GPUIO_ERROR_GENERAL, some c, none)
        | none =>
          finish_register c { internal0 with gpu_addr := ptr, bus_addr := ptr }
      | none =>
        finish_register c { internal0 with gpu_addr := ptr, bus_addr := ptr }

/-- The unlink loop of `gpuio_unregister_memory`: remove the first record
whose address equals the handle (pointer comparison `*current == internal`);
when none matches the loop falls through and the list is unchanged. -/
def unlink_region : List memory_region_internal → Ptr → List memory_region_internal
  | [], _ => []
  | r :: rest, h => if r.handle = h then rest else r :: unlink_region rest h

/-- `gpuio_unregister_memory` (src/src/memory.c:219).  Only a null handle is
rejected; the unlink loop removes the record when it is found, the vendor
unregister hook is best-effort, the public struct is marked unregistered and
the internal record is freed (an address the list does not hold is freed all
the same — the code does not detect an unknown handle). -/
def gpuio_unregister_memory (_vops : Option vendor_ops) (ctx : Option gpuio_context)
    (region : Option gpuio_memory_region) :
    gpuio_error × Option gpuio_context × Option gpuio_memory_region :=
  match ctx with
  | none => (GPUIO_ERROR_INVALID_ARG, none, region)
  | some c =>
    match region with
    | none => (GPUIO_ERROR_INVALID_ARG, some c, none)
    | some r =>
      if c.initialized = false then (GPUIO_ERROR_NOT_INITIALIZED, some c, some r)
      else if r.handle = 0 then (GPUIO_ERROR_INVALID_ARG, some c, some r)
      else
        (GPUIO_SUCCESS,
         some { c with regions := unlink_region c.regions r.handle },
         some { r with registered := false })

/-! ## Memory copy (src/src/memory.c) -/

/-- `gpuio_memcpy` (src/src/memory.c:265): vendor `memcpy` slot first (its
device-side effect is outside the model); on absence or failure, libc
`memcpy`; either way `stats.bytes_written` grows by `size`. -/
def gpuio_memcpy (vops : Option vendor_ops) (ctx : Option gpuio_context) (mem : Mem)
    (dst src : Ptr) (size : Nat) (stream : Option Nat) :
    gpuio_error × Option gpuio_context × Mem :=
  match ctx with
  | none => (GPUIO_ERROR_INVALID_ARG, none, mem)
  | some c =>
    if c.initialized = false then (GPUIO_ERROR_NOT_INITIALIZED, some c, mem)
    else if dst = 0 ∨ src = 0 then (GPUIO_ERROR_INVALID_ARG, some c, mem)
    else
      match vops with
      | some v =>
        match v.memcpy with
        | some f =>
          if f dst src size stream = 0 then
            (GPUIO_SUCCESS, some (bump_bytes_written c size), mem)
          else
            (GPUIO_SUCCESS, some (bump_bytes_written c size),
             c_memcpy mem dst src size)
        | none =>
          (GPUIO_SUCCESS, some (bump_bytes_written c size),
           c_memcpy mem dst src size)
      | none =>
        (GPUIO_SUCCESS, some (bump_bytes_written c size),
         c_memcpy mem dst src size)

/-- `gpuio_memcpy_async` (src/src/memory.c:302): "For now, just call
synchronous version". -/
def gpuio_memcpy_async (vops : Option vendor_ops) (ctx : Option gpuio_context)
    (mem : Mem) (dst src : Ptr) (size : Nat) (stream : Option Nat) :
    gpuio_error × Option gpuio_context × Mem :=
  gpuio_memcpy vops ctx mem dst src size stream

/-! ## Streams (src/src/stream.c) -/

/-- `gpuio_stream_create` (src/src/stream.c:16).  A record is calloc'd, the
vendor slot may refuse it (`GPUIO_ERROR_GENERAL`), then under the stream
lock the array is grown by one slot, the record appended, and its id set to
the slot index (`stream_id = ctx->num_streams`).  The returned handle is the
pointer stored in that slot, modelled as the slot index.  `realloc` failure
is not modelled. -/
def gpuio_stream_create (vops : Option vendor_ops) (ctx : Option gpuio_context)
    (streamp : Ptr) (priority : Int) :
    gpuio_error × Option gpuio_context × Option Nat :=
  match ctx with
  | none => (GPUIO_ERROR_INVALID_ARG, none, none)
  | some c =>
    if streamp = 0 then (GPUIO_ERROR_INVALID_ARG, some c, none)
    else if c.initialized = false then (GPUIO_ERROR_NOT_INITIALIZED, some c, none)
    else
      let append :=
        (GPUIO_SUCCESS,
         some { c with streams :=
                  c.streams ++ [{ id := (c.streams.length : Int), priority := priority }] },
         some c.streams.length)
      match vops with
      | some v =>
        match v.stream_create with
        | some f =>
          if f priority = 0 then append else (GPUIO_ERROR_GENERAL, some c, none)
        | none => append
      | none => append

/-- The destruction write of `gpuio_stream_destroy`: the record in slot `k`
gets `id = -1`; the slot itself is not compacted ("We don't remove from
array to keep IDs stable"), so every other slot is untouched. -/
def mark_destroyed : List stream_internal → Nat → List stream_internal
  | [], _ => []
  | s :: rest, 0 => { s with id := -1 } :: rest
  | s :: rest, k + 1 => s :: mark_destroyed rest k

/-- `gpuio_stream_destroy` (src/src/stream.c:77).  Vendor teardown is
best-effort; the record's id is set to `-1` and the record freed while its
slot keeps pointing at it.  (The C source returns the undefined identifier
`GPUPIO_SUCCESS` here — a typo for the success code, modelled as success.) -/
def gpuio_stream_destroy (_vops : Option vendor_ops) (ctx : Option gpuio_context)
    (stream : Option Nat) : gpuio_error × Option gpuio_context :=
  match ctx with
  | none => (GPUIO_ERROR_INVALID_ARG, none)
  | some c =>
    match stream with
    | none => (GPUIO_ERROR_INVALID_ARG, some c)
    | some k =>
      if c.initialized = false then (GPUIO_ERROR_NOT_INITIALIZED, some c)
      else (GPUIO_SUCCESS, some { c with streams := mark_destroyed c.streams k })

/-- `gpuio_stream_synchronize` (src/src/stream.c:103).  Null stream: every
slot with `id >= 0` is synchronized through the vendor slot (no observable
state change in the model) and the call succeeds.  Non-null stream: a
present vendor slot failing turns into `GPUIO_ERROR_GENERAL`. -/
def gpuio_stream_synchronize (vops : Option vendor_ops) (ctx : Option gpuio_context)
    (stream : Option Nat) : gpuio_error × Option gpuio_context :=
  match ctx with
  | none => (GPUIO_ERROR_INVALID_ARG, none)
  | some c =>
    if c.initialized = false then (GPUIO_ERROR_NOT_INITIALIZED, some c)
    else
      match stream with
      | none => (GPUIO_SUCCESS, some c)
      | some _ =>
        match vops with
        | some v =>
          match v.stream_synchronize with
          | some ret =>
            if ret = 0 then (GPUIO_SUCCESS, some c) else (GPUIO_ERROR_GENERAL, some c)
          | none => (GPUIO_SUCCESS, some c)
        | none => (GPUIO_SUCCESS, some c)

/-- `gpuio_stream_query` (src/src/stream.c:138): vendor query, or the
optimistic software default `*idle = true`. -/
def gpuio_stream_query (vops : Option vendor_ops) (ctx : Option gpuio_context)
    (stream : Option Nat) (idlep : Ptr) :
    gpuio_error × Option gpuio_context × Option Bool :=
  match ctx with
  | none => (GPUIO_ERROR_INVALID_ARG, none, none)
  | some c =>
    match stream with
    | none => (GPUIO_ERROR_INVALID_ARG, some c, none)
    | some _ =>
      if idlep = 0 then (GPUIO_ERROR_INVALID_ARG, some c, none)
      else if c.initialized = false then (GPUIO_ERROR_NOT_INITIALIZED, some c, none)
      else
        match vops with
        | some v =>
          match v.stream_query with
          | some r =>
            if r.1 = 0 then (GPUIO_SUCCESS, some c, some r.2)
            else (GPUIO_ERROR_GENERAL, some c, none)
          | none => (GPUIO_SUCCESS, some c, some true)
        | none => (GPUIO_SUCCESS, some c, some true)

/-! ## Events (src/src/stream.c) -/

/-- `gpuio_event_create` (src/src/stream.c:172): calloc an event record
(modelled as a fresh address), let the vendor slot refuse it, hand it out. -/
def gpuio_event_create (vops : Option vendor_ops) (ctx : Option gpuio_context)
    (eventp : Ptr) : gpuio_error × Option gpuio_context × Option Ptr :=
  match ctx with
  | none => (GPUIO_ERROR_INVALID_ARG, none, none)
  | some c =>
    if eventp = 0 then (GPUIO_ERROR_INVALID_ARG, some c, none)
    else if c.initialized = false then (GPUIO_ERROR_NOT_INITIALIZED, some c, none)
    else
      match vops with
      | some v =>
        match v.event_create with
        | some ret =>
          if ret = 0 then
            (GPUIO_SUCCESS, some { c with next_alloc := c.next_alloc + 1 },
             some (c.next_alloc + 1))
          else (GPUIO_ERROR_GENERAL, some c, none)
        | none =>
          (GPUIO_SUCCESS, some { c with next_alloc := c.next_alloc + 1 },
           some (c.next_alloc + 1))
      | none =>
        (GPUIO_SUCCESS, some { c with next_alloc := c.next_alloc + 1 },
         some (c.next_alloc + 1))

/-- `gpuio_event_destroy` (src/src/stream.c:198): best-effort vendor
teardown, then the record is freed and the call succeeds. -/
def gpuio_event_destroy (_vops : Option vendor_ops) (ctx : Option gpuio_context)
    (event : Option Ptr) : gpuio_error × Option gpuio_context :=
  match ctx with
  | none => (GPUIO_ERROR_INVALID_ARG, none)
  | some c =>
    match event with
    | none => (GPUIO_ERROR_INVALID_ARG, some c)
    | some _ =>
      if c.initialized = false then (GPUIO_ERROR_NOT_INITIALIZED, some c)
      else (GPUIO_SUCCESS, some c)

/-- `gpuio_event_record` (src/src/stream.c:215): delegate to the vendor slot
when present (non-zero status becomes `GPUIO_ERROR_GENERAL`), succeed as a
no-op otherwise. -/
def gpuio_event_record (vops : Option vendor_ops) (ctx : Option gpuio_context)
    (event : Option Ptr) (stream : Option Nat) :
    gpuio_error × Option gpuio_context :=
  match ctx with
  | none => (GPUIO_ERROR_INVALID_ARG, none)
  | some c =>
    match event, stream with
    | some _, some _ =>
      if c.initialized = false then (GPUIO_ERROR_NOT_INITIALIZED, some c)
      else
        match vops with
        | some v =>
          match v.event_record with
          | some ret =>
            if ret = 0 then (GPUIO_SUCCESS, some c) else (GPUIO_ERROR_GENERAL, some c)
          | none => (GPUIO_SUCCESS, some c)
        | none => (GPUIO_SUCCESS, some c)
    | _, _ => (GPUIO_ERROR_INVALID_ARG, some c)

/-- `gpuio_event_synchronize` (src/src/stream.c:237): vendor slot when
present, no-op success otherwise. -/
def gpuio_event_synchronize (vops : Option vendor_ops) (ctx : Option gpuio_context)
    (event : Option Ptr) : gpuio_error × Option gpuio_context :=
  match ctx with
  | none => (GPUIO_ERROR_INVALID_ARG, none)
  | some c =>
    match event with
    | none => (GPUIO_ERROR_INVALID_ARG, some c)
    | some _ =>
      if c.initialized = false then (GPUIO_ERROR_NOT_INITIALIZED, some c)
      else
        match vops with
        | some v =>
          match v.event_synchronize with
          | some ret =>
            if ret = 0 then (GPUIO_SUCCESS, some c) else (GPUIO_ERROR_GENERAL, some c)
          | none => (GPUIO_SUCCESS, some c)
        | none => (GPUIO_SUCCESS, some c)

/-- `gpuio_event_elapsed_time` (src/src/stream.c:256): vendor slot when
present, else the software fallback writes `0` milliseconds (the C float is
modelled as a natural number). -/
def gpuio_event_elapsed_time (vops : Option vendor_ops) (ctx : Option gpuio_context)
    (ev_start ev_stop : Option Ptr) (msp : Ptr) :
    gpuio_error × Option gpuio_context × Option Nat :=
  match ctx with
  | none => (GPUIO_ERROR_INVALID_ARG, none, none)
  | some c =>
    match ev_start, ev_stop with
    | some _, some _ =>
      if msp = 0 then (GPUIO_ERROR_INVALID_ARG, some c, none)
      else if c.initialized = false then (GPUIO_ERROR_NOT_INITIALIZED, some c, none)
      else
        match vops with
        | some v =>
          match v.event_elapsed_time with
          | some r =>
            if r.1 = 0 then (GPUIO_SUCCESS, some c, some r.2)
            else (GPUIO_ERROR_GENERAL, some c, none)
          | none => (GPUIO_SUCCESS, some c, some 0)
        | none => (GPUIO_SUCCESS, some c, some 0)
    | _, _ => (GPUIO_ERROR_INVALID_ARG, some c, none)

/-! ## Statistics (src/src/log.c) -/

/-- `gpuio_get_stats` (src/src/log.c:193): copy the counters out under the
stats lock. -/
def gpuio_get_stats (ctx : Option gpuio_context) (statsp : Ptr) :
    gpuio_error × Option gpuio_context × Option gpuio_stats :=
  match ctx with
  | none => (GPUIO_ERROR_INVALID_ARG, none, none)
  | some c =>
    if statsp = 0 then (GPUIO_ERROR_INVALID_ARG, some c, none)
    else if c.initialized = false then (GPUIO_ERROR_NOT_INITIALIZED, some c, none)
    else (GPUIO_SUCCESS, some c, some c.stats)

/-- `gpuio_reset_stats` (src/src/log.c:209): zero the counters under the
stats lock. -/
def gpuio_reset_stats (ctx : Option gpuio_context) :
    gpuio_error × Option gpuio_context :=
  match ctx with
  | none => (GPUIO_ERROR_INVALID_ARG, none)
  | some c =>
    if c.initialized = false then (GPUIO_ERROR_NOT_INITIALIZED, some c)
    else (GPUIO_SUCCESS, some { c with stats := gpuio_stats.zero })

/-! ## Concrete fixtures for closed evaluations -/

/-- An initialized context with empty registries. -/
def ctx0 : gpuio_context :=
  { initialized := true, current_device := 0, regions := [],
    next_region_handle := 0, next_alloc := 0, streams := [],
    stats := gpuio_stats.zero }

/-- A context that was never initialized. -/
def ctx_uninit : gpuio_context := { ctx0 with initialized := false }

/-- A vendor table every slot of which is a null function pointer. -/
def vt_none : vendor_ops :=
  { malloc_device := none, malloc_pinned := none, free := none, memcpy := none,
    register_memory := none, unregister_memory := none, stream_create := none,
    stream_destroy := none, stream_synchronize := none, stream_query := none,
    event_create := none, event_destroy := none, event_record := none,
    event_synchronize := none, event_elapsed_time := none }

/-- A vendor table whose register-memory slot is present and always fails. -/
def vt_regfail : vendor_ops :=
  { vt_none with register_memory := some (fun _ _ _ r => (1, r)) }

/-- An internal region record as the software fallback tracks one. -/
def reg1 : memory_region_internal :=
  { handle := 1, base_addr := 100, gpu_addr := 100, bus_addr := 100,
    length := 8, access := 2, gpu_id := 0, registered := true, is_pinned := false }

/-- `ctx0` with `reg1` registered. -/
def ctx1 : gpuio_context := { ctx0 with regions := [reg1], next_region_handle := 1 }

/-- A public region struct whose handle is non-null but tracked by no
context above. -/
def pub99 : gpuio_memory_region :=
  { base_addr := 500, gpu_addr := 0, bus_addr := 0, length := 8,
    access := 2, gpu_id := 0, registered := true, handle := 99 }

/-- The public struct `gpuio_register_memory` filled for `reg1`. -/
def pub1 : gpuio_memory_region :=
  { base_addr := 100, gpu_addr := 100, bus_addr := 100, length := 8,
    access := 2, gpu_id := 0, registered := true, handle := 1 }

/-- The identity byte pattern, so copies are observable. -/
def mem_id : Mem := fun a => a

/-! ## Helper lemmas -/

theorem mem_of_mem_unlink {l : List memory_region_internal} {h : Ptr}
    {x : memory_region_internal} (hx : x ∈ unlink_region l h) : x ∈ l := by
  induction l with
  | nil => simp [unlink_region] at hx
  | cons a t ih =>
    by_cases hah : a.handle = h
    · simp only [unlink_region, if_pos hah] at hx
      exact List.mem_cons_of_mem a hx
    · simp only [unlink_region, if_neg hah] at hx
      rcases List.mem_cons.mp hx with hxa | hxt
      · exact hxa ▸ List.mem_cons_self a t
      · exact List.mem_cons_of_mem a (ih hxt)

theorem unlink_handle_ne {l : List memory_region_internal} {h : Ptr}
    {x : memory_region_internal}
    (hu : l.Pairwise (fun a b => a.handle ≠ b.handle))
    (hx : x ∈ unlink_region l h) : x.handle ≠ h := by
  induction l with
  | nil => simp [unlink_region] at hx
  | cons a t ih =>
    rcases List.pairwise_cons.mp hu with ⟨ha, ht⟩
    by_cases hah : a.handle = h
    · simp only [unlink_region, if_pos hah] at hx
      exact fun hxh => (ha x hx) (hah.trans hxh.symm)
    · simp only [unlink_region, if_neg hah] at hx
      rcases List.mem_cons.mp hx with hxa | hxt
      · exact hxa ▸ hah
      · exact ih ht hxt

theorem unlink_region_id {l : List memory_region_internal} {h : Ptr}
    (hmiss : ∀ x ∈ l, x.handle ≠ h) : unlink_region l h = l := by
  induction l with
  | nil => rfl
  | cons a t ih =>
    have hah : a.handle ≠ h := hmiss a (List.mem_cons_self a t)
    simp only [unlink_region, if_neg hah]
    rw [ih (fun x hx => hmiss x (List.mem_cons_of_mem a hx))]

theorem mark_destroyed_getElem_ne {l : List stream_internal} {j k : Nat}
    (hjk : j ≠ k) : (mark_destroyed l k)[j]? = l[j]? := by
  induction l generalizing j k with
  | nil => rfl
  | cons s t ih =>
    cases k with
    | zero =>
      cases j with
      | zero => exact absurd rfl hjk
      | succ j => simp [mark_destroyed]
    | succ k =>
      cases j with
      | zero => simp [mark_destroyed]
      | succ j =>
        simp only [mark_destroyed, List.getElem?_cons_succ]
        exact ih (fun hq => hjk (by simp [hq]))

/-! ## Claim theorems -/

/-- C9: `gpuio_memcpy_async` returns the same result code and has the same
effect on memory and statistics as `gpuio_memcpy` at every argument: the
asynchronous variant is exactly the synchronous copy. -/
theorem memcpy_async_eq_memcpy (vops : Option vendor_ops)
    (ctx : Option gpuio_context) (mem : Mem) (dst src : Ptr) (size : Nat)
    (stream : Option Nat) :
    gpuio_memcpy_async vops ctx mem dst src size stream =
      gpuio_memcpy vops ctx mem dst src size stream := rfl

/-- C10: on an initialized context, `gpuio_free` of the null pointer returns
success and changes nothing — the null check comes before the region scan,
so the result does not depend on the region list at all (the theorem holds
even for a context holding a region whose base address is `0`). -/
theorem free_null_ok (vops : Option vendor_ops) (c : gpuio_context)
    (hin : c.initialized = true) :
    gpuio_free vops (some c) 0 = (GPUIO_SUCCESS, some c) := by
  simp [gpuio_free, hin]

/-- C10 witness: freeing null succeeds untouched even when a region with
base address `0` sits in the registry (no scan happens). -/
theorem free_null_ok_witness :
    gpuio_free none
        (some { ctx0 with regions := [{ reg1 with base_addr := 0 }] }) 0 =
      (GPUIO_SUCCESS, some { ctx0 with regions := [{ reg1 with base_addr := 0 }] }) :=
  free_null_ok none { ctx0 with regions := [{ reg1 with base_addr := 0 }] } rfl

/-- C8: `gpuio_malloc_unified` reports unsupported and produces no
allocation when there is no vendor table, or the table's `malloc_device`
slot is absent — there is no software fallback for unified allocation. -/
theorem malloc_unified_unsupported_without_vendor (vops : Option vendor_ops)
    (c : gpuio_context) (size : Nat) (p : Ptr)
    (hin : c.initialized = true) (hp : p ≠ 0)
    (hv : vops = none ∨ ∃ v, vops = some v ∧ v.malloc_device = none) :
    gpuio_malloc_unified vops (some c) size p =
      (GPUIO_ERROR_UNSUPPORTED, some c, none) := by
  rcases hv with h | ⟨v, hv, hd⟩
  · subst h
    simp [gpuio_malloc_unified, hin, hp]
  · subst hv
    simp [gpuio_malloc_unified, hin, hp, hd]

/-- C8 witness: a table with every slot null makes unified allocation
unsupported on the concrete context. -/
theorem malloc_unified_unsupported_without_vendor_witness :
    gpuio_malloc_unified (some vt_none) (some ctx0) 4096 1 =
      (GPUIO_ERROR_UNSUPPORTED, some ctx0, none) :=
  malloc_unified_unsupported_without_vendor (some vt_none) ctx0 4096 1 rfl
    (by decide) (Or.inr ⟨vt_none, rfl, rfl⟩)

/-- C5: with no vendor table, `gpuio_memcpy` on non-null, non-overlapping
source and destination succeeds, copies the source bytes to the destination
byte for byte, and grows `bytes_written` by exactly the copied length. -/
theorem memcpy_software_fallback_copies (c : gpuio_context) (mem : Mem)
    (dst src : Ptr) (size : Nat) (stream : Option Nat)
    (hin : c.initialized = true) (hd : dst ≠ 0) (hs : src ≠ 0)
    (_hno : dst + size ≤ src ∨ src + size ≤ dst) :
    (gpuio_memcpy none (some c) mem dst src size stream).1 = GPUIO_SUCCESS ∧
    (gpuio_memcpy none (some c) mem dst src size stream).2.1 =
      some (bump_bytes_written c size) ∧
    (bump_bytes_written c size).stats.bytes_written =
      c.stats.bytes_written + size ∧
    ∀ i, i < size →
      (gpuio_memcpy none (some c) mem dst src size stream).2.2 (dst + i) =
        mem (src + i) := by
  have heq : gpuio_memcpy none (some c) mem dst src size stream =
      (GPUIO_SUCCESS, some (bump_bytes_written c size),
       c_memcpy mem dst src size) := by
    simp [gpuio_memcpy, hin, hd, hs]
  refine ⟨by rw [heq], by rw [heq], rfl, ?_⟩
  intro i hi
  rw [heq]
  show c_memcpy mem dst src size (dst + i) = mem (src + i)
  have h1 : dst ≤ dst + i := Nat.le_add_right dst i
  have h2 : dst + i < dst + size := Nat.add_lt_add_left hi dst
  simp [c_memcpy, h1, h2]

/-- C5 witness: copying 8 bytes from address 200 to address 100 over the
identity byte pattern. -/
theorem memcpy_software_fallback_copies_witness :
    (gpuio_memcpy none (some ctx0) mem_id 100 200 8 none).1 = GPUIO_SUCCESS ∧
    (gpuio_memcpy none (some ctx0) mem_id 100 200 8 none).2.1 =
      some (bump_bytes_written ctx0 8) ∧
    (bump_bytes_written ctx0 8).stats.bytes_written =
      ctx0.stats.bytes_written + 8 ∧
    ∀ i, i < 8 →
      (gpuio_memcpy none (some ctx0) mem_id 100 200 8 none).2.2 (100 + i) =
        mem_id (200 + i) :=
  memcpy_software_fallback_copies ctx0 mem_id 100 200 8 none rfl
    (by decide) (by decide) (Or.inl (by decide))

/-- C1 counterexample: with a vendor table whose register-memory slot is a
null pointer, registering a valid pointer of non-zero size does NOT fail —
it returns success and inserts a region (the software fallback of
src/src/memory.c:191), refuting "absence of the vendor registration slot
fails the whole call". -/
theorem register_absent_slot_success_cex :
    (gpuio_register_memory (some vt_none) (some ctx0) 4096 64 2 1).1 =
      GPUIO_SUCCESS ∧
    (gpuio_register_memory (some vt_none) (some ctx0) 4096 64 2 1).1 ≠
      GPUIO_ERROR_GENERAL ∧
    ((gpuio_register_memory (some vt_none) (some ctx0) 4096 64 2 1).2.1.map
      (fun e => e.regions.length)) = some 1 := by
  refine ⟨rfl, by decide, rfl⟩

/-- C1 as amended: registration fails — with a general error, no region
inserted, no handle returned — whenever the vendor table's register-memory
slot is PRESENT and its call returns non-zero; when the slot is a null
pointer the call instead succeeds through the software fallback, inserting
a region whose base address is the caller's pointer. -/
theorem register_memory_vendor_failure_fails (v w : vendor_ops)
    (f : Ptr → Nat → Nat → memory_region_internal → Int × memory_region_internal)
    (c : gpuio_context) (ptr : Ptr) (size access : Nat) (rp : Ptr)
    (hin : c.initialized = true) (hrp : rp ≠ 0) (hp : ptr ≠ 0) (hsz : size ≠ 0)
    (hslot : v.register_memory = some f)
    (hfail : (f ptr size access (reg_internal0 c ptr size access)).1 ≠ 0)
    (habsent : w.register_memory = none) :
    gpuio_register_memory (some v) (some c) ptr size access rp =
      (GPUIO_ERROR_GENERAL, some c, none) ∧
    (gpuio_register_memory (some w) (some c) ptr size access rp).1 =
      GPUIO_SUCCESS ∧
    ((gpuio_register_memory (some w) (some c) ptr size access rp).2.1.map
      (fun e => e.regions.map (fun x => x.base_addr))) =
      some (ptr :: c.regions.map (fun x => x.base_addr)) := by
  have hps : ¬(ptr = 0 ∨ size = 0) := by
    rintro (h | h)
    · exact hp h
    · exact hsz h
  refine ⟨?_, ?_, ?_⟩
  · simp [gpuio_register_memory, hin, hrp, hps, hslot, hfail]
  · simp [gpuio_register_memory, hin, hrp, hps, habsent, finish_register]
  · simp [gpuio_register_memory, hin, hrp, hps, habsent, finish_register,
      reg_internal0]

/-- C1 witness: a concrete always-failing register slot fails the call on
`ctx0` while the slot-less table succeeds and tracks the region. -/
theorem register_memory_vendor_failure_fails_witness :
    gpuio_register_memory (some vt_regfail) (some ctx0) 4096 64 2 1 =
      (GPUIO_ERROR_GENERAL, some ctx0, none) ∧
    (gpuio_register_memory (some vt_none) (some ctx0) 4096 64 2 1).1 =
      GPUIO_SUCCESS ∧
    ((gpuio_register_memory (some vt_none) (some ctx0) 4096 64 2 1).2.1.map
      (fun e => e.regions.map (fun x => x.base_addr))) =
      some (4096 :: ctx0.regions.map (fun x => x.base_addr)) :=
  register_memory_vendor_failure_fails vt_regfail vt_none
    (fun _ _ _ r => (1, r)) ctx0 4096 64 2 1 rfl (by decide) (by decide)
    (by decide) rfl (by decide) rfl

/-- C2 counterexample: unregistering a non-null handle the context does not
track returns success, not invalid-argument (the unlink loop of
src/src/memory.c:237 falls through and the handle is freed unchecked); the
region list is untouched. -/
theorem unregister_unknown_handle_cex :
    (gpuio_unregister_memory none (some ctx1) (some pub99)).1 =
      GPUIO_SUCCESS ∧
    (gpuio_unregister_memory none (some ctx1) (some pub99)).1 ≠
      GPUIO_ERROR_INVALID_ARG ∧
    ((gpuio_unregister_memory none (some ctx1) (some pub99)).2.1.map
      (fun e => e.regions)) = some [reg1] := by
  refine ⟨rfl, by decide, ?_⟩
  simp [gpuio_unregister_memory, ctx1, ctx0, unlink_region, pub99, reg1,
    gpuio_stats.zero]

/-- C2 as amended: only a NULL handle is rejected with invalid-argument (and
the list is untouched); a non-null handle that no tracked region carries is
not detected — the call returns success and still leaves the region list
unchanged. -/
theorem unregister_unknown_handle_behavior (vops : Option vendor_ops)
    (c : gpuio_context) (r r0 : gpuio_memory_region)
    (hin : c.initialized = true) (h0 : r.handle ≠ 0)
    (hmiss : ∀ x ∈ c.regions, x.handle ≠ r.handle) (hr0 : r0.handle = 0) :
    gpuio_unregister_memory vops (some c) (some r) =
      (GPUIO_SUCCESS, some c, some { r with registered := false }) ∧
    gpuio_unregister_memory vops (some c) (some r0) =
      (GPUIO_ERROR_INVALID_ARG, some c, some r0) := by
  constructor
  · have hun : unlink_region c.regions r.handle = c.regions :=
      unlink_region_id hmiss
    simp only [gpuio_unregister_memory]
    rw [if_neg (by simp [hin]), if_neg h0, hun]
  · simp [gpuio_unregister_memory, hin, hr0]

/-- C2 witness: on a context tracking one region with handle 1, the unknown
non-null handle 99 "unregisters" successfully without touching the list,
and a null handle is rejected. -/
theorem unregister_unknown_handle_behavior_witness :
    gpuio_unregister_memory none (some ctx1) (some pub99) =
      (GPUIO_SUCCESS, some ctx1, some { pub99 with registered := false }) ∧
    gpuio_unregister_memory none (some ctx1)
        (some { pub99 with handle := 0 }) =
      (GPUIO_ERROR_INVALID_ARG, some ctx1,
       some { pub99 with handle := 0 }) :=
  unregister_unknown_handle_behavior none ctx1 pub99
    { pub99 with handle := 0 } rfl (by decide) (by decide) rfl

/-- Shape of a successful registration: some internal record carrying the
fresh non-null handle was prepended via `finish_register`. -/
theorem register_success_shape (vops : Option vendor_ops) (c : gpuio_context)
    (ptr : Ptr) (size access : Nat) (rp : Ptr)
    (hin : c.initialized = true) (hrp : rp ≠ 0) (hp : ptr ≠ 0) (hsz : size ≠ 0)
    (hs : (gpuio_register_memory vops (some c) ptr size access rp).1 =
      GPUIO_SUCCESS) :
    ∃ internal : memory_region_internal,
      internal.handle = c.next_region_handle + 1 ∧
      gpuio_register_memory vops (some c) ptr size access rp =
        finish_register c internal := by
  have hps : ¬(ptr = 0 ∨ size = 0) := by
    rintro (h | h)
    · exact hp h
    · exact hsz h
  match hv : vops with
  | none =>
    exact ⟨{ reg_internal0 c ptr size access with gpu_addr := ptr, bus_addr := ptr },
      rfl, by simp [gpuio_register_memory, hin, hrp, hps]⟩
  | some v =>
    match hm : v.register_memory with
    | none =>
      exact ⟨{ reg_internal0 c ptr size access with gpu_addr := ptr, bus_addr := ptr },
        rfl, by simp [gpuio_register_memory, hin, hrp, hps, hm]⟩
    | some f =>
      by_cases hret : (f ptr size access (reg_internal0 c ptr size access)).1 = 0
      · exact ⟨{ (f ptr size access (reg_internal0 c ptr size access)).2 with
            handle := (reg_internal0 c ptr size access).handle },
          rfl, by simp [gpuio_register_memory, hin, hrp, hps, hm, hret]⟩
      · exfalso
        simp [gpuio_register_memory, hin, hrp, hps, hm, hret] at hs

/-- C7: starting from an initialized context whose region registry is empty,
a successful registration followed immediately by unregistration of the
returned handle succeeds and restores the empty registry. -/
theorem register_unregister_roundtrip_empty (vops : Option vendor_ops)
    (c c1 : gpuio_context) (r1 : gpuio_memory_region)
    (ptr : Ptr) (size access : Nat) (rp : Ptr)
    (hin : c.initialized = true) (hemp : c.regions = [])
    (hp : ptr ≠ 0) (hsz : size ≠ 0) (hrp : rp ≠ 0)
    (hs : (gpuio_register_memory vops (some c) ptr size access rp).1 =
      GPUIO_SUCCESS)
    (h1 : (gpuio_register_memory vops (some c) ptr size access rp).2.1 = some c1)
    (h2 : (gpuio_register_memory vops (some c) ptr size access rp).2.2 = some r1) :
    gpuio_unregister_memory vops (some c1) (some r1) =
      (GPUIO_SUCCESS, some { c1 with regions := [] },
       some { r1 with registered := false }) := by
  obtain ⟨internal, hh, heq⟩ :=
    register_success_shape vops c ptr size access rp hin hrp hp hsz hs
  rw [heq] at h1 h2
  simp only [finish_register, Option.some.injEq] at h1 h2
  subst h1
  subst h2
  simp [gpuio_unregister_memory, hin, hh, hemp, unlink_region]

/-- C7 witness: register 8 bytes at address 100 on the empty context, then
unregister the returned handle; the registry is empty again. -/
theorem register_unregister_roundtrip_empty_witness :
    gpuio_unregister_memory none (some ctx1) (some pub1) =
      (GPUIO_SUCCESS, some { ctx1 with regions := [] },
       some { pub1 with registered := false }) :=
  register_unregister_roundtrip_empty none ctx0 ctx1 pub1 100 8 2 1 rfl rfl
    (by decide) (by decide) (by decide) rfl (by decide) (by decide)

/-- C4: freeing an address that is the base of a region still in the list
fails with resource-busy and changes nothing; unregistering that region then
succeeds, and freeing the same address afterwards succeeds. -/
theorem free_registered_busy_then_success (vops : Option vendor_ops)
    (c : gpuio_context) (p : Ptr) (r : memory_region_internal)
    (pr : gpuio_memory_region)
    (hin : c.initialized = true) (hp : p ≠ 0)
    (hr : r ∈ c.regions) (hb : r.base_addr = p)
    (hh : pr.handle = r.handle) (hh0 : r.handle ≠ 0)
    (huniq : c.regions.Pairwise (fun a b => a.handle ≠ b.handle))
    (honly : ∀ x ∈ c.regions, x.base_addr = p → x.handle = r.handle) :
    gpuio_free vops (some c) p = (GPUIO_ERROR_BUSY, some c) ∧
    (gpuio_unregister_memory vops (some c) (some pr)).1 = GPUIO_SUCCESS ∧
    ∀ c1, (gpuio_unregister_memory vops (some c) (some pr)).2.1 = some c1 →
      gpuio_free vops (some c1) p = (GPUIO_SUCCESS, some c1) := by
  have hpr0 : pr.handle ≠ 0 := by
    rw [hh]
    exact hh0
  refine ⟨?_, ?_, ?_⟩
  · have hbusy : c.regions.any (fun x => x.base_addr == p) = true := by
      rw [List.any_eq_true]
      exact ⟨r, hr, by simp [hb]⟩
    simp [gpuio_free, hin, hp, hbusy]
  · simp [gpuio_unregister_memory, hin, hpr0]
  · intro c1 h1
    simp only [gpuio_unregister_memory] at h1
    rw [if_neg (by simp [hin]), if_neg hpr0] at h1
    simp only [Option.some.injEq] at h1
    subst h1
    have hnone : (unlink_region c.regions pr.handle).any
        (fun x => x.base_addr == p) = false := by
      rw [List.any_eq_false]
      intro x hx
      simp only [beq_iff_eq]
      intro hxb
      have hxh : x.handle = r.handle := honly x (mem_of_mem_unlink hx) hxb
      exact (unlink_handle_ne huniq hx) (hxh.trans hh.symm)
    cases vops with
    | none => simp [gpuio_free, hin, hp, hnone]
    | some v =>
      cases hf : v.free with
      | none => simp [gpuio_free, hin, hp, hnone, hf]
      | some f => simp [gpuio_free, hin, hp, hnone, hf]

/-- C4 witness: on the context tracking `reg1` (base address 100), freeing
100 is busy; unregistering `reg1` succeeds, after which freeing 100
succeeds. -/
theorem free_registered_busy_then_success_witness :
    gpuio_free none (some ctx1) 100 = (GPUIO_ERROR_BUSY, some ctx1) ∧
    (gpuio_unregister_memory none (some ctx1) (some pub1)).1 = GPUIO_SUCCESS ∧
    ∀ c1, (gpuio_unregister_memory none (some ctx1) (some pub1)).2.1 = some c1 →
      gpuio_free none (some c1) 100 = (GPUIO_SUCCESS, some c1) :=
  free_registered_busy_then_success none ctx1 100 reg1 pub1 rfl
    (by decide) (by decide) rfl rfl (by decide) (by decide) (by decide)

/-- The status the vendor path of `gpuio_stream_create` yields: the create
slot's return when a table carries one, `0` (nothing to fail) otherwise. -/
def vendor_stream_create_status (vops : Option vendor_ops) (pri : Int) : Int :=
  match vops with
  | some v =>
    match v.stream_create with
    | some f => f pri
    | none => 0
  | none => 0

/-- When the vendor path does not fail, `gpuio_stream_create` appends one
record whose id is the array length at append time and returns its slot. -/
theorem stream_create_appends (vops : Option vendor_ops) (c : gpuio_context)
    (sp : Ptr) (pri : Int)
    (hin : c.initialized = true) (hsp : sp ≠ 0)
    (hv : vendor_stream_create_status vops pri = 0) :
    gpuio_stream_create vops (some c) sp pri =
      (GPUIO_SUCCESS,
       some { c with streams :=
                c.streams ++ [{ id := (c.streams.length : Int), priority := pri }] },
       some c.streams.length) := by
  cases vops with
  | none => simp [gpuio_stream_create, hin, hsp]
  | some v =>
    cases hf : v.stream_create with
    | none => simp [gpuio_stream_create, hin, hsp, hf]
    | some f =>
      have hz : f pri = 0 := by
        simpa [vendor_stream_create_status, hf] using hv
      simp [gpuio_stream_create, hin, hsp, hf, hz]

/-- `gpuio_stream_create` iterated `n` times: the sequential creation loop
behind the spec's id property. -/
def create_streams (vops : Option vendor_ops) (sp : Ptr) (pri : Int) :
    Nat → gpuio_context → gpuio_context
  | 0, c => c
  | n + 1, c =>
    match (gpuio_stream_create vops (some c) sp pri).2.1 with
    | some c1 => create_streams vops sp pri n c1
    | none => c

/-- Sequential creation appends records with consecutive ids starting at the
current array length, and keeps the context initialized. -/
theorem create_streams_spec (vops : Option vendor_ops) (sp : Ptr) (pri : Int)
    (n : Nat) (c : gpuio_context)
    (hin : c.initialized = true) (hsp : sp ≠ 0)
    (hv : ∀ q, vendor_stream_create_status vops q = 0) :
    (create_streams vops sp pri n c).initialized = true ∧
    (create_streams vops sp pri n c).streams =
      c.streams ++ (List.range' c.streams.length n).map
        (fun i => { id := (i : Int), priority := pri }) := by
  induction n generalizing c with
  | zero => simp [create_streams, hin]
  | succ n ih =>
    have hstep := stream_create_appends vops c sp pri hin hsp (hv pri)
    simp only [create_streams, hstep]
    obtain ⟨ih1, ih2⟩ := ih
      { c with streams :=
          c.streams ++ [{ id := (c.streams.length : Int), priority := pri }] } hin
    refine ⟨ih1, ?_⟩
    rw [ih2]
    simp [List.range'_succ, List.append_assoc]

/-- C6: from an initialized context with no streams, creating N streams
sequentially fills the array with records of ids `0..N-1` in order (each id
being the slot index at append time); destroying stream `k` on any
initialized context succeeds and leaves every other slot — hence every
other live stream's id — exactly as it was. -/
theorem stream_ids_sequential_and_stable (vops : Option vendor_ops)
    (c d : gpuio_context) (sp : Ptr) (pri : Int) (N j k : Nat)
    (hin : c.initialized = true) (hsp : sp ≠ 0)
    (hv : ∀ q, vendor_stream_create_status vops q = 0)
    (hemp : c.streams = []) (hd : d.initialized = true) (hjk : j ≠ k) :
    (create_streams vops sp pri N c).streams =
      (List.range' 0 N).map (fun i => { id := (i : Int), priority := pri }) ∧
    (gpuio_stream_destroy vops (some d) (some k)).1 = GPUIO_SUCCESS ∧
    ((gpuio_stream_destroy vops (some d) (some k)).2.map
      (fun e => e.streams[j]?)) = some (d.streams[j]?) := by
  refine ⟨?_, ?_, ?_⟩
  · have h := (create_streams_spec vops sp pri N c hin hsp hv).2
    rw [h, hemp]
    simp
  · simp [gpuio_stream_destroy, hd]
  · simp [gpuio_stream_destroy, hd, mark_destroyed_getElem_ne hjk]

/-- A context already holding three live streams with ids 0, 1, 2. -/
def ctx3 : gpuio_context :=
  { ctx0 with streams :=
      [{ id := 0, priority := 0 }, { id := 1, priority := 0 },
       { id := 2, priority := 0 }] }

/-- C6 witness: creating three streams on the empty context yields ids
0, 1, 2 in order, and destroying stream 1 of `ctx3` leaves slot 0 as it
was. -/
theorem stream_ids_sequential_and_stable_witness :
    (create_streams none 1 0 3 ctx0).streams =
      (List.range' 0 3).map (fun i => { id := (i : Int), priority := 0 }) ∧
    (gpuio_stream_destroy none (some ctx3) (some 1)).1 = GPUIO_SUCCESS ∧
    ((gpuio_stream_destroy none (some ctx3) (some 1)).2.map
      (fun e => e.streams[0]?)) = some (ctx3.streams[0]?) :=
  stream_ids_sequential_and_stable none ctx0 ctx3 1 0 3 0 1 rfl (by decide)
    (fun _ => rfl) rfl rfl (by decide)

/-- The argument-check contract every public operation shares: a null
context is rejected with invalid-argument before anything else (whatever the
other arguments are), and a non-null context that is not initialized is
rejected with not-initialized — the state returned untouched and no output
written — provided the required non-context pointers are non-null. -/
def precondition_checks (vops : Option vendor_ops) (c : gpuio_context)
    (mem : Mem) (size acc : Nat) (p : Ptr) (r : gpuio_memory_region)
    (pri : Int) (k : Nat) (ev : Ptr) (st : Option Nat) : Prop :=
  gpuio_malloc none size p = (GPUIO_ERROR_INVALID_ARG, none, none) ∧
  gpuio_malloc_pinned vops none size p = (GPUIO_ERROR_INVALID_ARG, none, none) ∧
  gpuio_malloc_device vops none size p = (GPUIO_ERROR_INVALID_ARG, none, none) ∧
  gpuio_malloc_unified vops none size p = (GPUIO_ERROR_INVALID_ARG, none, none) ∧
  gpuio_free vops none p = (GPUIO_ERROR_INVALID_ARG, none) ∧
  gpuio_register_memory vops none p size acc p =
    (GPUIO_ERROR_INVALID_ARG, none, none) ∧
  gpuio_unregister_memory vops none (some r) =
    (GPUIO_ERROR_INVALID_ARG, none, some r) ∧
  gpuio_memcpy vops none mem p p size st = (GPUIO_ERROR_INVALID_ARG, none, mem) ∧
  gpuio_memcpy_async vops none mem p p size st =
    (GPUIO_ERROR_INVALID_ARG, none, mem) ∧
  gpuio_stream_create vops none p pri = (GPUIO_ERROR_INVALID_ARG, none, none) ∧
  gpuio_stream_destroy vops none (some k) = (GPUIO_ERROR_INVALID_ARG, none) ∧
  gpuio_stream_synchronize vops none (some k) = (GPUIO_ERROR_INVALID_ARG, none) ∧
  gpuio_stream_query vops none (some k) p = (GPUIO_ERROR_INVALID_ARG, none, none) ∧
  gpuio_event_create vops none p = (GPUIO_ERROR_INVALID_ARG, none, none) ∧
  gpuio_event_destroy vops none (some ev) = (GPUIO_ERROR_INVALID_ARG, none) ∧
  gpuio_event_record vops none (some ev) (some k) =
    (GPUIO_ERROR_INVALID_ARG, none) ∧
  gpuio_event_synchronize vops none (some ev) = (GPUIO_ERROR_INVALID_ARG, none) ∧
  gpuio_event_elapsed_time vops none (some ev) (some ev) p =
    (GPUIO_ERROR_INVALID_ARG, none, none) ∧
  gpuio_get_stats none p = (GPUIO_ERROR_INVALID_ARG, none, none) ∧
  gpuio_reset_stats none = (GPUIO_ERROR_INVALID_ARG, none) ∧
  gpuio_malloc (some c) size p = (GPUIO_ERROR_NOT_INITIALIZED, some c, none) ∧
  gpuio_malloc_pinned vops (some c) size p =
    (GPUIO_ERROR_NOT_INITIALIZED, some c, none) ∧
  gpuio_malloc_device vops (some c) size p =
    (GPUIO_ERROR_NOT_INITIALIZED, some c, none) ∧
  gpuio_malloc_unified vops (some c) size p =
    (GPUIO_ERROR_NOT_INITIALIZED, some c, none) ∧
  gpuio_free vops (some c) p = (GPUIO_ERROR_NOT_INITIALIZED, some c) ∧
  gpuio_register_memory vops (some c) p size acc p =
    (GPUIO_ERROR_NOT_INITIALIZED, some c, none) ∧
  gpuio_unregister_memory vops (some c) (some r) =
    (GPUIO_ERROR_NOT_INITIALIZED, some c, some r) ∧
  gpuio_memcpy vops (some c) mem p p size st =
    (GPUIO_ERROR_NOT_INITIALIZED, some c, mem) ∧
  gpuio_memcpy_async vops (some c) mem p p size st =
    (GPUIO_ERROR_NOT_INITIALIZED, some c, mem) ∧
  gpuio_stream_create vops (some c) p pri =
    (GPUIO_ERROR_NOT_INITIALIZED, some c, none) ∧
  gpuio_stream_destroy vops (some c) (some k) =
    (GPUIO_ERROR_NOT_INITIALIZED, some c) ∧
  gpuio_stream_synchronize vops (some c) (some k) =
    (GPUIO_ERROR_NOT_INITIALIZED, some c) ∧
  gpuio_stream_query vops (some c) (some k) p =
    (GPUIO_ERROR_NOT_INITIALIZED, some c, none) ∧
  gpuio_event_create vops (some c) p =
    (GPUIO_ERROR_NOT_INITIALIZED, some c, none) ∧
  gpuio_event_destroy vops (some c) (some ev) =
    (GPUIO_ERROR_NOT_INITIALIZED, some c) ∧
  gpuio_event_record vops (some c) (some ev) (some k) =
    (GPUIO_ERROR_NOT_INITIALIZED, some c) ∧
  gpuio_event_synchronize vops (some c) (some ev) =
    (GPUIO_ERROR_NOT_INITIALIZED, some c) ∧
  gpuio_event_elapsed_time vops (some c) (some ev) (some ev) p =
    (GPUIO_ERROR_NOT_INITIALIZED, some c, none) ∧
  gpuio_get_stats (some c) p = (GPUIO_ERROR_NOT_INITIALIZED, some c, none) ∧
  gpuio_reset_stats (some c) = (GPUIO_ERROR_NOT_INITIALIZED, some c)

/-- C3: every public operation — allocation, free, register/unregister,
memcpy (sync and async), stream and event operations, statistics get/reset —
returns invalid-argument on a null context and not-initialized on a non-null
uninitialized context, in that order, leaving the state untouched and
writing no output (the required non-context pointers taken non-null). -/
theorem ops_null_then_uninit_checks (vops : Option vendor_ops)
    (c : gpuio_context) (mem : Mem) (size acc : Nat) (p : Ptr)
    (r : gpuio_memory_region) (pri : Int) (k : Nat) (ev : Ptr)
    (st : Option Nat) (hin : c.initialized = false) (hp : p ≠ 0) :
    precondition_checks vops c mem size acc p r pri k ev st := by
  unfold precondition_checks
  simp [gpuio_malloc, gpuio_malloc_pinned, gpuio_malloc_device,
    gpuio_malloc_unified, gpuio_free, gpuio_register_memory,
    gpuio_unregister_memory, gpuio_memcpy, gpuio_memcpy_async,
    gpuio_stream_create, gpuio_stream_destroy, gpuio_stream_synchronize,
    gpuio_stream_query, gpuio_event_create, gpuio_event_destroy,
    gpuio_event_record, gpuio_event_synchronize, gpuio_event_elapsed_time,
    gpuio_get_stats, gpuio_reset_stats, hin, hp]

/-- C3 witness: all forty checks evaluated on the concrete uninitialized
context and concrete non-null pointers. -/
theorem ops_null_then_uninit_checks_witness :
    precondition_checks none ctx_uninit mem_id 16 2 1 pub99 0 0 1 none :=
  ops_null_then_uninit_checks none ctx_uninit mem_id 16 2 1 pub99 0 0 1 none
    rfl (by decide)
